import Mathlib

/-!
Verification of the configuration-validation core of the openr routing daemon
(`src/openr/config/Config.cpp`).  The C++ code is shallowly embedded: each
contiguous validation block of `Config::populateInternalDb` becomes a Lean
function returning `Except String _` (a thrown exception becomes `.error msg`
with the same formatted message), and `populateInternalDb` sequences the blocks
in exactly the order of the source.  Machine integers of the thrift document
(i32/i64 fields) are modelled as `Int`; the `uint8_t allocationPfxLen`
parameter of `createPrefixAllocationParams` is modelled as `Nat` (its C++
domain 0..255 is a subset).

External collaborators that are not part of this repository are modelled at
their boundary, each marked in its doc comment:
  * `folly::IPAddress::createNetwork` (string parsing + network masking),
  * the RE2 pattern compiler/matcher (a subset: literal characters, `.`,
    postfix `*`; anchored full-string, case-insensitive),
  * the thrift-generated accessors and constants declared in `Config.h`
    (which is not under `src/`).
-/

/-! ## Addresses and `folly::IPAddress::createNetwork` -/

/-- A parsed IP address: the numeric value of the 32-bit (v4) or 128-bit (v6)
address. Mirrors `folly::IPAddress` at the boundary used by `Config.cpp`. -/
inductive IPAddr where
  | v4 (a : Nat)
  | v6 (a : Nat)
deriving DecidableEq, Repr

/-- Number of bits of the address family (32 for v4, 128 for v6). -/
def IPAddr.bitCount : IPAddr → Nat
  | .v4 _ => 32
  | .v6 _ => 128

/-- Is this a v4 address (mirrors `folly::IPAddress::isV4`). -/
def IPAddr.isV4 : IPAddr → Bool
  | .v4 _ => true
  | .v6 _ => false

/-- The upper bound the code enforces on an allocation length for this
address family: 32 for v4 and 128 for v6 (the literals of
`Config::createPrefixAllocationParams`). -/
def famLimit : IPAddr → Nat
  | .v4 _ => 32
  | .v6 _ => 128

/-- Mask an address down to its first `n` bits, zeroing the rest
(mirrors `folly::IPAddress::mask`). -/
def maskAddr : IPAddr → Nat → IPAddr
  | .v4 a, n => .v4 (a / 2 ^ (32 - n) * 2 ^ (32 - n))
  | .v6 a, n => .v6 (a / 2 ^ (128 - n) * 2 ^ (128 - n))

/-- Split a character list at every occurrence of `sep`. -/
def splitCharList (sep : Char) : List Char → List (List Char)
  | [] => [[]]
  | c :: cs =>
    match splitCharList sep cs with
    | [] => if c = sep then [[], []] else [[c]]
    | g :: gs => if c = sep then [] :: g :: gs else (c :: g) :: gs

/-- Parse a non-empty all-decimal-digit group into its value. -/
def parseDigits (g : List Char) : Option Nat :=
  if g ≠ [] ∧ g.all Char.isDigit then
    some (g.foldl (fun a c => a * 10 + (c.toNat - 48)) 0)
  else none

/-- Parse one dotted-quad octet: decimal, no leading zero (except "0"),
value at most 255 (mirrors the strict `inet_pton`-style v4 parsing used by
`folly::IPAddressV4`). -/
def parseOctet (g : List Char) : Option Nat :=
  match parseDigits g with
  | none => none
  | some n =>
    if (g.head? = some '0' ∧ 1 < g.length) ∨ 255 < n then none else some n

/-- Parse a dotted-quad IPv4 address into its 32-bit value. -/
def parseIPv4 (cs : List Char) : Option Nat :=
  match splitCharList '.' cs with
  | [g1, g2, g3, g4] =>
    match parseOctet g1, parseOctet g2, parseOctet g3, parseOctet g4 with
    | some o1, some o2, some o3, some o4 =>
      some (((o1 * 256 + o2) * 256 + o3) * 256 + o4)
    | _, _, _, _ => none
  | _ => none

/-- Value of one hexadecimal digit. -/
def hexVal (c : Char) : Option Nat :=
  if c.isDigit then some (c.toNat - 48)
  else if 'a' ≤ c ∧ c ≤ 'f' then some (c.toNat - 87)
  else if 'A' ≤ c ∧ c ≤ 'F' then some (c.toNat - 55)
  else none

/-- Parse one IPv6 group: one to four hex digits. -/
def parseHexGroup (g : List Char) : Option Nat :=
  if g = [] ∨ 4 < g.length then none
  else
    g.foldl
      (fun acc c =>
        match acc, hexVal c with
        | some a, some v => some (a * 16 + v)
        | _, _ => none)
      (some 0)

/-- Parse a list of IPv6 groups, most significant first. -/
def parseHexGroups : List (List Char) → Option Nat
  | [] => some 0
  | g :: gs =>
    match parseHexGroup g, parseHexGroups gs with
    | some v, some rest => some (v * 2 ^ (16 * gs.length) + rest)
    | _, _ => none

/-- Split a character list at the first "::", if any. -/
def findDoubleColon : List Char → Option (List Char × List Char)
  | [] => none
  | ':' :: ':' :: rest => some ([], rest)
  | c :: rest =>
    (findDoubleColon rest).map (fun p => (c :: p.1, p.2))

/-- Parse an IPv6 address into its 128-bit value.  Model of the external
folly/inet_pton textual v6 parser restricted to hex-group forms: eight
colon-separated groups, or a shorter form with one `::` compression
(embedded-v4 forms such as "::ffff:1.2.3.4" are not modelled; no claim
depends on them). -/
def parseIPv6 (cs : List Char) : Option Nat :=
  match findDoubleColon cs with
  | none =>
    let gs := splitCharList ':' cs
    if gs.length = 8 then parseHexGroups gs else none
  | some (l, r) =>
    if (findDoubleColon r).isSome then none
    else
      let lgs := if l = [] then [] else splitCharList ':' l
      let rgs := if r = [] then [] else splitCharList ':' r
      if 7 < lgs.length + rgs.length then none
      else
        match parseHexGroups lgs, parseHexGroups rgs with
        | some ln, some rn =>
          some (ln * 2 ^ (16 * (8 - lgs.length)) + rn)
        | _, _ => none

/-- Parse a textual IP address; a string containing ':' is parsed as v6,
otherwise as v4 (mirrors `folly::IPAddress::tryFromString`). -/
def parseAddr (cs : List Char) : Option IPAddr :=
  if cs.contains ':' then (parseIPv6 cs).map IPAddr.v6
  else (parseIPv4 cs).map IPAddr.v4

/-- Parse "addr/len" (or bare "addr", defaulting to the full family length)
into the raw, unmasked pair, rejecting a length beyond the family's bit
count.  First half of the model of `folly::IPAddress::createNetwork`
(external library): the parse before the mask is applied. -/
def splitNetworkParse (s : String) : Option (IPAddr × Nat) :=
  match splitCharList '/' s.data with
  | [ip] => (parseAddr ip).map (fun a => (a, a.bitCount))
  | [ip, cd] =>
    match parseAddr ip, parseDigits cd with
    | some a, some n => if n ≤ a.bitCount then some (a, n) else none
    | _, _ => none
  | _ => none

/-- Model of `folly::IPAddress::createNetwork(str)` as called (with default
arguments) by `Config::createPrefixAllocationParams`: parse, then apply the
mask to the address — folly's `applyMask` parameter defaults to `true`, so
the returned base address is the input address masked down to the declared
prefix length. -/
def createNetwork (s : String) : Option (IPAddr × Nat) :=
  (splitNetworkParse s).map (fun p => (maskAddr p.1 p.2, p.2))

/-! ## `Config::createPrefixAllocationParams` -/

/-- `PrefixAllocationParams = std::pair<folly::CIDRNetwork, uint8_t>`:
((seed base address, seed length), allocation length). -/
abbrev PrefixAllocationParams := (IPAddr × Nat) × Nat

/-- The two allocation-length range checks of `createPrefixAllocationParams`
(Config.cpp lines 63-78): for a v4 seed the length must lie in
(seed length, 32], for a v6 seed in (seed length, 128]. -/
def allocLenCheck (seedAddr : IPAddr) (seedLen allocationPfxLen : Nat) :
    Except String PrefixAllocationParams :=
  match seedAddr with
  | .v4 x =>
    if allocationPfxLen ≤ seedLen ∨ 32 < allocationPfxLen then
      .error s!"invalid allocate_prefix_len ({allocationPfxLen}), valid range = ({seedLen}, 32]"
    else
      .ok ((.v4 x, seedLen), allocationPfxLen)
  | .v6 x =>
    if allocationPfxLen ≤ seedLen ∨ 128 < allocationPfxLen then
      .error s!"invalid allocate_prefix_len ({allocationPfxLen}), valid range = ({seedLen}, 128]"
    else
      .ok ((.v6 x, seedLen), allocationPfxLen)

/-- Embedding of `Config::createPrefixAllocationParams` (Config.cpp lines
51-81): reject empty seed / zero length, parse the seed network through
`createNetwork`, then range-check the allocation length per family. -/
def createPrefixAllocationParams (seedPfxStr : String) (allocationPfxLen : Nat) :
    Except String PrefixAllocationParams :=
  if seedPfxStr = "" ∨ allocationPfxLen = 0 then
    .error "seed_prefix and allocate_prefix_len must be filled."
  else
    match createNetwork seedPfxStr with
    | none => .error ("Invalid seed prefix: " ++ seedPfxStr)
    | some (a, len) => allocLenCheck a len allocationPfxLen

/-! ## Pattern classifier (model of the RE2 boundary) -/

/-- One regex atom of the modelled RE2 subset. -/
inductive RegexAtom where
  | lit (c : Char)
  | dot
deriving DecidableEq, Repr

/-- An atom together with whether a postfix `*` applies to it. -/
structure RegexItem where
  atom : RegexAtom
  starred : Bool
deriving DecidableEq, Repr

/-- A compiled pattern: a sequence of (possibly starred) atoms, matched
against the whole candidate (RE2 `ANCHOR_BOTH`). -/
abbrev RegexPat := List RegexItem

/-- A compiled `re2::RE2::Set`: the list of its compiled patterns. -/
abbrev CompiledSet := List RegexPat

/-- Metacharacters outside the modelled RE2 subset; a pattern using one
fails to compile in the model. -/
def regexMetaChars : List Char := "()[]|+?^$\\".data

/-- Model of the RE2 pattern compiler (external library) on the subset
used here: literal characters, `.`, and a postfix `*`; a leading or
doubled `*` and the unsupported metacharacters are compile errors. -/
def parseRegex : List Char → Option RegexPat
  | [] => some []
  | '*' :: _ => none
  | c :: '*' :: rest =>
    if regexMetaChars.contains c then none
    else (parseRegex rest).map (fun r => ⟨if c = '.' then .dot else .lit c, true⟩ :: r)
  | c :: rest =>
    if regexMetaChars.contains c then none
    else (parseRegex rest).map (fun r => ⟨if c = '.' then .dot else .lit c, false⟩ :: r)

/-- Case-insensitive single-character match (`set_case_sensitive(false)`);
RE2's `.` matches any character except a newline. -/
def atomMatches : RegexAtom → Char → Bool
  | .lit c, d => c.toLower = d.toLower
  | .dot, d => d ≠ '\n'

/-- Match a compiled pattern against the whole of a character list. -/
def regexItemsMatch : RegexPat → List Char → Bool
  | [], [] => true
  | [], _ :: _ => false
  | ⟨_, false⟩ :: _, [] => false
  | ⟨a, false⟩ :: ps, c :: cs => atomMatches a c && regexItemsMatch ps cs
  | ⟨a, true⟩ :: ps, s =>
    regexItemsMatch ps s ||
      match s with
      | [] => false
      | c :: cs => atomMatches a c && regexItemsMatch (⟨a, true⟩ :: ps) cs
termination_by p s => (s.length, p.length)

/-- Does any pattern of the compiled set match the whole candidate string
(`re2::RE2::Set::Match` under `ANCHOR_BOTH`). -/
def setMatches (set : CompiledSet) (candidate : String) : Bool :=
  set.any (fun p => regexItemsMatch p candidate.data)

/-! ## Area registry (`Config::addAreaRegex`, `Config::populateAreaConfig`) -/

/-- One entry of the `areas` list of the configuration document
(`thrift::AreaConfig`). -/
structure AreaConfig where
  area_id : String
  neighbor_regexes : List String
  interface_regexes : List String
deriving DecidableEq, Repr

/-- A compiled area entry of `areaConfigs_`
(the `AreaConfiguration` value type declared in `Config.h`). -/
structure AreaConfiguration where
  areaId : String
  neighborRegexList : Option CompiledSet
  interfaceRegexList : Option CompiledSet
deriving DecidableEq, Repr

/-- The registry state built by `Config::populateAreaConfig`: the id set
`areaIds_` (in insertion order) and the compiled map `areaConfigs_`. -/
structure AreaState where
  areaIds : List String
  areaConfigs : List (String × AreaConfiguration)
deriving DecidableEq, Repr

/-- Modelled from the spec: the well-known default-area constant
(`thrift::KvStore_constants::kDefaultArea()`, generated code not under
`src/`; the spec only calls it "a well-known constant"). -/
def kDefaultArea : String := "0"

/-- Compile a list of pattern strings into one set, failing on the first
pattern that does not compile, with `mkErr` building the error message
for the offending pattern (the trailing RE2-generated error text of the
original message is not modelled). -/
def compilePatternList (mkErr : String → String) : List String → Except String CompiledSet
  | [] => .ok []
  | pat :: rest =>
    match parseRegex pat.data with
    | none => .error (mkErr pat)
    | some r =>
      match compilePatternList mkErr rest with
      | .error e => .error e
      | .ok rs => .ok (r :: rs)

/-- Embedding of `Config::addAreaRegex` (Config.cpp lines 83-143): require at
least one non-empty pattern list, compile each non-empty list into a set, and
append the `AreaConfiguration` to `areaConfigs_`. -/
def addAreaRegex (acc : List (String × AreaConfiguration)) (areaId : String)
    (neighborRegexes interfaceRegexes : List String) :
    Except String (List (String × AreaConfiguration)) :=
  if neighborRegexes = [] ∧ interfaceRegexes = [] then
    .error "Invalid config. At least one non-empty regexes for neighbor or interface"
  else
    match
      (if neighborRegexes = [] then .ok none
       else
         match
           compilePatternList
             (fun p => s!"Failed to add neighbor regex: {p} for area: {areaId}. Error: ")
             neighborRegexes
         with
         | .error e => .error e
         | .ok set => .ok (some set) : Except String (Option CompiledSet))
    with
    | .error e => .error e
    | .ok nset =>
      match
        (if interfaceRegexes = [] then .ok none
         else
           match
             compilePatternList
               (fun p => s!"Failed to add interface regex: {p} for area: {areaId}. Error: ")
               interfaceRegexes
           with
           | .error e => .error e
           | .ok set => .ok (some set) : Except String (Option CompiledSet))
      with
      | .error e => .error e
      | .ok iset => .ok (acc ++ [(areaId, ⟨areaId, nset, iset⟩)])

/-- The duplicate-id sweep of `Config::populateAreaConfig` (lines 162-169):
emplace each id into `areaIds_`, failing on an id already present. -/
def checkDupAux : List AreaConfig → List String → Except String (List String)
  | [], acc => .ok acc
  | a :: rest, acc =>
    if a.area_id ∈ acc then
      .error ("Duplicate area config: area_id " ++ a.area_id)
    else checkDupAux rest (acc ++ [a.area_id])

/-- The compilation sweep of `Config::populateAreaConfig` (lines 171-176):
`addAreaRegex` for every area of the *configured* list. -/
def compileAreas : List AreaConfig → List (String × AreaConfiguration) →
    Except String (List (String × AreaConfiguration))
  | [], acc => .ok acc
  | a :: rest, acc =>
    match addAreaRegex acc a.area_id a.neighbor_regexes a.interface_regexes with
    | .error e => .error e
    | .ok acc2 => compileAreas rest acc2

/-- Embedding of `Config::populateAreaConfig` (Config.cpp lines 148-177).
When the configured area list is empty a default `AreaConfig` (id
`kDefaultArea`, both pattern lists `[".*"]`) is synthesized for the
duplicate-id sweep; note that the compilation sweep of line 171 iterates the
*configured* list (`*config_.areas_ref()`), so for an empty configuration no
`AreaConfiguration` is ever compiled and only `areaIds_` holds the default
id. -/
def populateAreaConfig (cfgAreas : List AreaConfig) : Except String AreaState :=
  let defaultArea : AreaConfig :=
    { area_id := kDefaultArea, neighbor_regexes := [".*"], interface_regexes := [".*"] }
  let areas := if cfgAreas.isEmpty then [defaultArea] else cfgAreas
  match checkDupAux areas [] with
  | .error e => .error e
  | .ok areaIds =>
    match compileAreas cfgAreas [] with
    | .error e => .error e
    | .ok configs => .ok ⟨areaIds, configs⟩

/-- Find the compiled configuration of an area id in the registry. -/
def lookupAreaConfiguration (st : AreaState) (areaId : String) : Option AreaConfiguration :=
  (st.areaConfigs.find? (fun kv => kv.1 = areaId)).map (fun kv => kv.2)

/-- Modelled from the spec: the neighbor-classification query against the
Area Registry (the query side of `AreaConfiguration` lives in `Config.h`,
which is not under `src/`).  An id registered in `areaIds_` without a
compiled `AreaConfiguration` is the synthesized default area, which the spec
describes as a catch-all "match any string" ("implemented as a catch-all
rather than a compiled pattern"); a compiled area without a neighbor set
matches no neighbor. -/
def areaNeighborMatches (st : AreaState) (areaId candidate : String) : Bool :=
  match lookupAreaConfiguration st areaId with
  | some ac =>
    match ac.neighborRegexList with
    | some set => setMatches set candidate
    | none => false
  | none => decide (areaId ∈ st.areaIds)

/-- Modelled from the spec: the interface-classification query against the
Area Registry, symmetric to `areaNeighborMatches`. -/
def areaInterfaceMatches (st : AreaState) (areaId candidate : String) : Bool :=
  match lookupAreaConfiguration st areaId with
  | some ac =>
    match ac.interfaceRegexList with
    | some set => setMatches set candidate
    | none => false
  | none => decide (areaId ∈ st.areaIds)

/-! ## The configuration document (`thrift::OpenrConfig`, schema not under `src/`;
field set modelled from the spec's input description and the fields
`Config.cpp` reads) -/

/-- `thrift::KvstoreFloodRate`. -/
structure FloodRate where
  flood_msg_per_sec : Int
  flood_msg_burst_size : Int
deriving DecidableEq, Repr

/-- The kvstore sub-document (only the field `populateInternalDb` reads). -/
structure KvstoreConfig where
  flood_rate : Option FloodRate
deriving DecidableEq, Repr

/-- `thrift::StepDetectorConfig`. -/
structure StepDetectorConfig where
  lower_threshold : Int
  upper_threshold : Int
  fast_window_size : Int
  slow_window_size : Int
deriving DecidableEq, Repr

/-- `thrift::SparkConfig`: the liveness/timing sub-document. -/
structure SparkConfig where
  neighbor_discovery_port : Int
  hello_time_s : Int
  fastinit_hello_time_ms : Int
  keepalive_time_s : Int
  hold_time_s : Int
  graceful_restart_time_s : Int
  step_detector_conf : StepDetectorConfig
deriving DecidableEq, Repr

/-- `thrift::MonitorConfig`. -/
structure MonitorConfig where
  max_event_log : Int
deriving DecidableEq, Repr

/-- `thrift::LinkMonitorConfig`. -/
structure LinkMonitorConfig where
  linkflap_initial_backoff_ms : Int
  linkflap_max_backoff_ms : Int
  include_interface_regexes : List String
  exclude_interface_regexes : List String
  redistribute_interface_regexes : List String
deriving DecidableEq, Repr

/-- Enum value `PrefixAllocationMode::DYNAMIC_LEAF_NODE`. -/
def PrefixAllocationMode_DYNAMIC_LEAF_NODE : Int := 0

/-- Enum value `PrefixAllocationMode::DYNAMIC_ROOT_NODE`. -/
def PrefixAllocationMode_DYNAMIC_ROOT_NODE : Int := 1

/-- Enum value `PrefixAllocationMode::STATIC`. -/
def PrefixAllocationMode_STATIC : Int := 2

/-- Modelled from the spec: `enumName` recognition of the allocation-mode
enum (the thrift enum declaration is not under `src/`); a deserialized value
outside the declared members is unrecognized. -/
def enumNamePrefixAllocationMode (i : Int) : Bool :=
  i == PrefixAllocationMode_DYNAMIC_LEAF_NODE ||
  i == PrefixAllocationMode_DYNAMIC_ROOT_NODE ||
  i == PrefixAllocationMode_STATIC

/-- Enum value `PrefixForwardingType::IP`. -/
def PrefixForwardingType_IP : Int := 0

/-- Enum value `PrefixForwardingType::SR_MPLS`. -/
def PrefixForwardingType_SR_MPLS : Int := 1

/-- Enum value `PrefixForwardingAlgorithm::SP_ECMP`. -/
def PrefixForwardingAlgorithm_SP_ECMP : Int := 0

/-- Enum value `PrefixForwardingAlgorithm::KSP2_ED_ECMP`. -/
def PrefixForwardingAlgorithm_KSP2_ED_ECMP : Int := 1

/-- Modelled from the spec: `enumName` recognition of the forwarding type. -/
def enumNamePrefixForwardingType (i : Int) : Bool :=
  i == PrefixForwardingType_IP || i == PrefixForwardingType_SR_MPLS

/-- Modelled from the spec: `enumName` recognition of the forwarding
algorithm. -/
def enumNamePrefixForwardingAlgorithm (i : Int) : Bool :=
  i == PrefixForwardingAlgorithm_SP_ECMP || i == PrefixForwardingAlgorithm_KSP2_ED_ECMP

/-- `thrift::PrefixAllocationConfig`.  The thrift field `seed_prefix` is
named `seed_pfx` here; `allocate_prefix_len` is a non-negative length
(modelled from the spec: the schema is not under `src/`). -/
structure PrefixAllocationConfig where
  prefix_allocation_mode : Int
  seed_pfx : Option String
  allocate_prefix_len : Option Nat
deriving DecidableEq, Repr

/-- `thrift::OpenrConfig`: the deserialized configuration document, with the
sub-documents whose contents `populateInternalDb` never inspects
(`bgp_config`, `bgp_translation_config`, `watchdog_config`) modelled as
opaque `Option Unit` presence flags. -/
structure OpenrConfig where
  areas : List AreaConfig
  prefix_forwarding_type : Int
  prefix_forwarding_algorithm : Int
  enable_ordered_fib_programming : Bool
  kvstore_config : KvstoreConfig
  spark_config : SparkConfig
  monitor_config : MonitorConfig
  link_monitor_config : LinkMonitorConfig
  enable_prefix_allocation : Bool
  prefix_allocation_config : Option PrefixAllocationConfig
  enable_v4 : Bool
  enable_bgp_peering : Bool
  bgp_config : Option Unit
  bgp_translation_config : Option Unit
  enable_watchdog : Bool
  watchdog_config : Option Unit
deriving DecidableEq, Repr

/-- Accessor declared in `Config.h` (not under `src/`): the
ordered-FIB-programming enabled flag. -/
def isOrderedFibProgrammingEnabled (cfg : OpenrConfig) : Bool :=
  cfg.enable_ordered_fib_programming

/-- Accessor declared in `Config.h` (not under `src/`): the
prefix-allocation enabled flag. -/
def isPrefixAllocationEnabled (cfg : OpenrConfig) : Bool :=
  cfg.enable_prefix_allocation

/-- Accessor declared in `Config.h` (not under `src/`): the v4 enabled flag. -/
def isV4Enabled (cfg : OpenrConfig) : Bool :=
  cfg.enable_v4

/-- Accessor declared in `Config.h` (not under `src/`): the external-peering
enabled flag. -/
def isBgpPeeringEnabled (cfg : OpenrConfig) : Bool :=
  cfg.enable_bgp_peering

/-- Accessor declared in `Config.h` (not under `src/`): the watchdog enabled
flag. -/
def isWatchdogEnabled (cfg : OpenrConfig) : Bool :=
  cfg.enable_watchdog

/-! ## The subsystem validators of `Config::populateInternalDb` -/

/-- Forwarding-mode block (Config.cpp lines 183-196). -/
def checkPrefixForwarding (pfxType pfxAlgo : Int) : Except String Unit :=
  if !(enumNamePrefixForwardingType pfxType && enumNamePrefixForwardingAlgorithm pfxAlgo) then
    .error "invalid prefix_forwarding_type or prefix_forwarding_algorithm"
  else if pfxAlgo = PrefixForwardingAlgorithm_KSP2_ED_ECMP ∧
      pfxType ≠ PrefixForwardingType_SR_MPLS then
    .error "prefix_forwarding_type must be set to SR_MPLS for KSP2_ED_ECMP"
  else .ok ()

/-- Ordered-FIB block (lines 198-204): ordered programming requires a single
area (`areaIds_.size() > 1` is rejected). -/
def checkOrderedFib (cfg : OpenrConfig) (st : AreaState) : Except String Unit :=
  if isOrderedFibProgrammingEnabled cfg ∧ 1 < st.areaIds.length then
    .error "enable_ordered_fib_programming only support single area config"
  else .ok ()

/-- Kvstore flood-rate block (lines 206-217). -/
def checkKvstore (kc : KvstoreConfig) : Except String Unit :=
  match kc.flood_rate with
  | none => .ok ()
  | some fr =>
    if fr.flood_msg_per_sec ≤ 0 then
      .error "kvstore flood_msg_per_sec should be > 0"
    else if fr.flood_msg_burst_size ≤ 0 then
      .error "kvstore flood_msg_burst_size should be > 0"
    else .ok ()

/-- The neighbor-discovery-port check, the first check of the Spark block
(lines 222-228): the *condition* rejects any port outside (0, 65535] while
the message text names the range [0, 65535]. -/
def checkNeighborDiscoveryPort (p : Int) : Except String Unit :=
  if p ≤ 0 ∨ 65535 < p then
    .error s!"neighbor_discovery_port ({p}) should be in range [0, 65535]"
  else .ok ()

/-- The Spark (liveness/timing) block (lines 222-316), checks in source
order; the final step-detector threshold check of lines 308-316 repeats the
condition of lines 288-296 and is kept for fidelity. -/
def validateSpark (sc : SparkConfig) : Except String Unit :=
  let hello := sc.hello_time_s
  let fastinit := sc.fastinit_hello_time_ms
  let keepalive := sc.keepalive_time_s
  let hold := sc.hold_time_s
  let gr := sc.graceful_restart_time_s
  let lower := sc.step_detector_conf.lower_threshold
  let upper := sc.step_detector_conf.upper_threshold
  let fastw := sc.step_detector_conf.fast_window_size
  let sloww := sc.step_detector_conf.slow_window_size
  match checkNeighborDiscoveryPort sc.neighbor_discovery_port with
  | .error e => .error e
  | .ok _ =>
    if hello ≤ 0 then
      .error s!"hello_time_s ({hello}) should be > 0"
    else if fastinit ≤ 0 then
      .error s!"fastinit_hello_time_ms ({fastinit}) should be > 0"
    else if 1000 * hello < fastinit then
      .error s!"fastinit_hello_time_ms ({fastinit}) should be <= hold_time_s ({hello}) * 1000"
    else if keepalive ≤ 0 then
      .error s!"keepalive_time_s ({keepalive}) should be > 0"
    else if hold < keepalive then
      .error s!"keepalive_time_s ({keepalive}) should be <= hold_time_s ({hold})"
    else if hold ≤ 0 then
      .error s!"hold_time_s ({hold}) should be > 0"
    else if gr ≤ 0 then
      .error s!"graceful_restart_time_s ({gr}) should be > 0"
    else if gr < 3 * keepalive then
      .error s!"graceful_restart_time_s ({gr}) should be >= 3 * keepalive_time_s ({keepalive})"
    else if lower < 0 ∨ upper < 0 ∨ upper ≤ lower then
      .error s!"step_detector_conf.lower_threshold ({lower}) should be < step_detector_conf.upper_threshold ({upper}), and they should be >= 0"
    else if fastw < 0 ∨ sloww < 0 ∨ sloww < fastw then
      .error s!"step_detector_conf.fast_window_size ({fastw}) should be <= step_detector_conf.slow_window_size ({sloww}), and they should be >= 0"
    else if lower < 0 ∨ upper < 0 ∨ upper ≤ lower then
      .error s!"step_detector_conf.lower_threshold ({lower}) should be < step_detector_conf.upper_threshold ({upper})"
    else .ok ()

/-- Monitor block (lines 318-326). -/
def checkMonitor (mc : MonitorConfig) : Except String Unit :=
  let v := mc.max_event_log
  if v < 0 then .error s!"monitor_max_event_log ({v}) should be >= 0"
  else .ok ()

/-- Link-flap backoff block over the two bounds (lines 332-351): each bound
must be non-negative and the check `initial > max` throws — so equal bounds
pass, although the message text says "should be <". -/
def checkLinkflapBackoffVals (i m : Int) : Except String Unit :=
  if i < 0 then
    .error s!"linkflap_initial_backoff_ms ({i}) should be >= 0"
  else if m < 0 then
    .error s!"linkflap_max_backoff_ms ({m}) should be >= 0"
  else if m < i then
    .error s!"linkflap_initial_backoff_ms ({i}) should be < linkflap_max_backoff_ms ({m})"
  else .ok ()

/-- Link-flap backoff block applied to the link-monitor sub-document. -/
def checkLinkflapBackoff (lm : LinkMonitorConfig) : Except String Unit :=
  checkLinkflapBackoffVals lm.linkflap_initial_backoff_ms lm.linkflap_max_backoff_ms

/-- Interface-selection compilation (lines 353-405): an empty list builds no
set; a non-empty list is compiled, failing on the first bad pattern. -/
def compileItfSet (sectionName : String) (pats : List String) :
    Except String (Option CompiledSet) :=
  if pats = [] then .ok none
  else
    match compilePatternList (fun _ => s!"Add {sectionName} failed: ") pats with
    | .error e => .error e
    | .ok set => .ok (some set)

/-- The mode-dispatch part of the prefix-allocation block (lines 424-454):
`enumName` sanity check, then the `switch` on the allocation mode.  The `v4
enabled` cross-check only needs the `enable_v4` flag of the document, passed
here as `v4Enabled`. -/
def checkPrefixAllocationConf (v4Enabled : Bool) (paConf : PrefixAllocationConfig) :
    Except String (Option PrefixAllocationParams) :=
  if !(enumNamePrefixAllocationMode paConf.prefix_allocation_mode) then
    .error "invalid prefix_allocation_mode"
  else
    let seedPfx := paConf.seed_pfx.getD ""
    let allocatePfxLen := paConf.allocate_prefix_len.getD 0
    if paConf.prefix_allocation_mode = PrefixAllocationMode_DYNAMIC_ROOT_NODE then
      match createPrefixAllocationParams seedPfx allocatePfxLen with
      | .error e => .error e
      | .ok params =>
        if params.1.1.isV4 && !v4Enabled then
          .error "v4 seed_prefix detected, but enable_v4 = false"
        else .ok (some params)
    else if paConf.prefix_allocation_mode = PrefixAllocationMode_DYNAMIC_LEAF_NODE ∨
        paConf.prefix_allocation_mode = PrefixAllocationMode_STATIC then
      if seedPfx ≠ "" ∨ 0 < allocatePfxLen then
        .error "prefix_allocation_mode != DYNAMIC_ROOT_NODE, seed_prefix and allocate_prefix_len must be empty"
      else .ok none
    else .ok none

/-- Prefix-allocation block (lines 407-455), returning the derived
`prefixAllocationParams_` (`none` when allocation is disabled or the mode
derives none). -/
def checkPrefixAllocation (cfg : OpenrConfig) (areaIds : List String) :
    Except String (Option PrefixAllocationParams) :=
  if isPrefixAllocationEnabled cfg then
    if 1 < areaIds.length then
      .error "prefix_allocation only support single area config"
    else
      match cfg.prefix_allocation_config with
      | none => .error "enable_prefix_allocation = true, but prefix_allocation_config is empty"
      | some paConf => checkPrefixAllocationConf (isV4Enabled cfg) paConf
  else .ok none

/-- External-peering block (lines 457-469): peering enabled without a
peering sub-document is an error; peering enabled without a translation
sub-document synthesizes an empty default translation sub-document into the
stored configuration (the commented-out throw of lines 467-468 stays
disabled). -/
def checkBgp (cfg : OpenrConfig) : Except String OpenrConfig :=
  if isBgpPeeringEnabled cfg ∧ cfg.bgp_config = none then
    .error "enable_bgp_peering = true, but bgp_config is empty"
  else if isBgpPeeringEnabled cfg ∧ cfg.bgp_translation_config = none then
    .ok { cfg with bgp_translation_config := some () }
  else .ok cfg

/-- Watchdog block (lines 471-477). -/
def checkWatchdog (cfg : OpenrConfig) : Except String Unit :=
  if isWatchdogEnabled cfg ∧ cfg.watchdog_config = none then
    .error "enable_watchdog = true, but watchdog_config is empty"
  else .ok ()

/-- The state a successful `populateInternalDb` leaves behind: the (possibly
amended) stored document plus the derived state. -/
structure ValidatedState where
  config : OpenrConfig
  areaState : AreaState
  prefixAllocationParams : Option PrefixAllocationParams
  includeItfRegexes : Option CompiledSet
  excludeItfRegexes : Option CompiledSet
  redistributeItfRegexes : Option CompiledSet
deriving DecidableEq, Repr

/-- Embedding of `Config::populateInternalDb` (lines 179-479): the validation
blocks in source order, failing fast on the first error. -/
def populateInternalDb (cfg : OpenrConfig) : Except String ValidatedState :=
  Except.bind (populateAreaConfig cfg.areas) fun ast =>
  Except.bind (checkPrefixForwarding cfg.prefix_forwarding_type cfg.prefix_forwarding_algorithm) fun _ =>
  Except.bind (checkOrderedFib cfg ast) fun _ =>
  Except.bind (checkKvstore cfg.kvstore_config) fun _ =>
  Except.bind (validateSpark cfg.spark_config) fun _ =>
  Except.bind (checkMonitor cfg.monitor_config) fun _ =>
  Except.bind (checkLinkflapBackoff cfg.link_monitor_config) fun _ =>
  Except.bind (compileItfSet "include_interface_regexes" cfg.link_monitor_config.include_interface_regexes) fun inc =>
  Except.bind (compileItfSet "exclude_interface_regexes" cfg.link_monitor_config.exclude_interface_regexes) fun exc =>
  Except.bind (compileItfSet "redistribute_interface_regexes" cfg.link_monitor_config.redistribute_interface_regexes) fun red =>
  Except.bind (checkPrefixAllocation cfg ast.areaIds) fun pap =>
  Except.bind (checkBgp cfg) fun cfg2 =>
  Except.bind (checkWatchdog cfg2) fun _ =>
  .ok ⟨cfg2, ast, pap, inc, exc, red⟩

/-! ## Concrete documents used by witnesses -/

/-- A Spark sub-document passing every check of `validateSpark`
(keepalive equal to hold, graceful-restart exactly three times keepalive). -/
def sparkOk : SparkConfig :=
  { neighbor_discovery_port := 6666
    hello_time_s := 60
    fastinit_hello_time_ms := 600
    keepalive_time_s := 10
    hold_time_s := 10
    graceful_restart_time_s := 30
    step_detector_conf := ⟨10, 40, 10, 60⟩ }

/-- A configuration document passing every validator, with every optional
feature disabled. -/
def sampleConfig : OpenrConfig :=
  { areas := []
    prefix_forwarding_type := PrefixForwardingType_IP
    prefix_forwarding_algorithm := PrefixForwardingAlgorithm_SP_ECMP
    enable_ordered_fib_programming := false
    kvstore_config := ⟨none⟩
    spark_config := sparkOk
    monitor_config := ⟨100⟩
    link_monitor_config := ⟨60000, 300000, [], [], []⟩
    enable_prefix_allocation := false
    prefix_allocation_config := none
    enable_v4 := true
    enable_bgp_peering := false
    bgp_config := none
    bgp_translation_config := none
    enable_watchdog := false
    watchdog_config := none }

/-! ## Helper lemmas -/

theorem exceptBind_ok {α β ε : Type} (a : α) (f : α → Except ε β) :
    Except.bind (.ok a) f = f a := rfl

theorem exceptBind_error {α β ε : Type} (e : ε) (f : α → Except ε β) :
    Except.bind (.error e) f = (.error e : Except ε β) := rfl

theorem exceptMap_bind {α β γ ε : Type} (x : Except ε α) (f : α → Except ε β) (g : β → γ) :
    Except.map g (Except.bind x f) = Except.bind x (fun a => Except.map g (f a)) := by
  cases x <;> rfl

theorem famLimit_maskAddr (a : IPAddr) (len : Nat) : famLimit (maskAddr a len) = famLimit a := by
  cases a <;> rfl

theorem allocLenCheck_ok (a : IPAddr) (len t : Nat) (h1 : len < t) (h2 : t ≤ famLimit a) :
    allocLenCheck a len t = .ok ((a, len), t) := by
  cases a <;>
    (simp only [famLimit] at h2
     simp only [allocLenCheck]
     rw [if_neg (by omega)])

theorem allocLenCheck_isOk (a : IPAddr) (len t : Nat) :
    (∃ r, allocLenCheck a len t = .ok r) ↔ len < t ∧ t ≤ famLimit a := by
  cases a <;>
    (simp only [allocLenCheck, famLimit]
     split_ifs with h
     · constructor
       · rintro ⟨r, hr⟩; simp at hr
       · intro hc; omega
     · exact ⟨fun _ => by omega, fun _ => ⟨_, rfl⟩⟩)

/-! ## Claims -/

/-- Claim C1: for a configuration whose declared area list is empty,
`populateAreaConfig` succeeds and the resulting registry holds exactly one
area id — the well-known default constant — and the default area's neighbor
and interface classification matches every candidate string (it is the
synthesized catch-all: line 171 iterates the configured list, so no pattern
is compiled for it). -/
theorem c1_empty_area_list_default :
    populateAreaConfig [] = .ok ⟨[kDefaultArea], []⟩ ∧
    ∀ s, areaNeighborMatches ⟨[kDefaultArea], []⟩ kDefaultArea s = true ∧
         areaInterfaceMatches ⟨[kDefaultArea], []⟩ kDefaultArea s = true :=
  ⟨rfl, fun _ => ⟨rfl, rfl⟩⟩

/-- Claim C2 (counterexample): the claim says every port in the inclusive
range [0, 65535] is accepted, but the check of lines 223-228 rejects port 0
(its condition is `port <= 0`), even though 0 lies in the range its own
message names. -/
theorem c2_port_zero_rejected :
    checkNeighborDiscoveryPort 0 =
      .error "neighbor_discovery_port (0) should be in range [0, 65535]" ∧
    ((0 : Int) ≤ 0 ∧ (0 : Int) ≤ 65535) :=
  ⟨rfl, by decide⟩

/-- Claim C2 (amended): the port check accepts exactly the ports in the
half-open range (0, 65535]; every other value is rejected with an error
naming the port and the (inclusive) range `[0, 65535]` of the message text;
and a Spark sub-document accepted by the whole liveness validator has its
port in that range. -/
theorem c2_port_range_amended (p : Int) (sc : SparkConfig) :
    (checkNeighborDiscoveryPort p = .ok () ↔ 0 < p ∧ p ≤ 65535) ∧
    ((p ≤ 0 ∨ 65535 < p) →
      checkNeighborDiscoveryPort p =
        .error s!"neighbor_discovery_port ({p}) should be in range [0, 65535]") ∧
    (validateSpark sc = .ok () →
      0 < sc.neighbor_discovery_port ∧ sc.neighbor_discovery_port ≤ 65535) := by
  refine ⟨?_, ?_, ?_⟩
  · unfold checkNeighborDiscoveryPort
    split_ifs with h
    · constructor
      · intro hc; simp at hc
      · intro hc; omega
    · constructor
      · intro _; omega
      · intro _; rfl
  · intro h
    unfold checkNeighborDiscoveryPort
    rw [if_pos h]
  · intro hok
    unfold validateSpark at hok
    cases hp : checkNeighborDiscoveryPort sc.neighbor_discovery_port with
    | error e => rw [hp] at hok; simp at hok
    | ok u =>
      unfold checkNeighborDiscoveryPort at hp
      by_cases h : sc.neighbor_discovery_port ≤ 0 ∨ 65535 < sc.neighbor_discovery_port
      · rw [if_pos h] at hp; simp at hp
      · omega

/-- Claim C2 (witness for the amended claim) at the out-of-range port
70000. -/
theorem c2_port_range_amended_witness :
    checkNeighborDiscoveryPort 70000 =
      .error "neighbor_discovery_port (70000) should be in range [0, 65535]" :=
  (c2_port_range_amended 70000 sparkOk).2.1 (by decide)

/-- Claim C3 (counterexample): the claim says a pair with initial backoff
equal to max backoff is rejected, but lines 345-351 only throw on
`initial > max`, so equal backoffs (here both 5) pass the whole block. -/
theorem c3_equal_backoff_accepted :
    checkLinkflapBackoffVals 5 5 = .ok () ∧ ¬ ((5 : Int) < 5) :=
  ⟨rfl, by decide⟩

/-- Claim C3 (amended): the link-flap backoff block accepts exactly the
pairs with both bounds non-negative and initial at most max (equality is
accepted; only the message text of lines 345-351 says "should be <"). -/
theorem c3_backoff_amended (lm : LinkMonitorConfig) :
    checkLinkflapBackoff lm = .ok () ↔
      0 ≤ lm.linkflap_initial_backoff_ms ∧ 0 ≤ lm.linkflap_max_backoff_ms ∧
      lm.linkflap_initial_backoff_ms ≤ lm.linkflap_max_backoff_ms := by
  unfold checkLinkflapBackoff checkLinkflapBackoffVals
  split_ifs with h1 h2 h3 <;> constructor <;> intro h
  · simp at h
  · omega
  · simp at h
  · omega
  · simp at h
  · omega
  · omega
  · rfl

/-- Claim C4 (counterexample): the claim says the base address in the result
equals the address as written even when it has bits set below the declared
length; but for "10.0.0.1/8" the returned base is 10.0.0.0 (167772160), not
the written 10.0.0.1 (167772161): line 61 calls
`folly::IPAddress::createNetwork` with its default `applyMask = true`. -/
theorem c4_seed_not_preserved :
    createPrefixAllocationParams "10.0.0.1/8" 24 = .ok ((IPAddr.v4 167772160, 8), 24) ∧
    parseAddr "10.0.0.1".data = some (IPAddr.v4 167772161) ∧
    (167772160 : Nat) ≠ 167772161 :=
  ⟨rfl, rfl, by decide⟩

/-- Claim C4 (amended): for every seed string parsing to (address, declared
length) and every target length in the legal range, the result carries the
parsed pair with the base address *masked* down to the declared length
(folly's `createNetwork` applies the mask by default), the declared length
itself unmodified, and the target length unmodified. -/
theorem c4_masked_amended (s : String) (t : Nat) (a : IPAddr) (len : Nat)
    (hs : s ≠ "") (ht : 0 < t) (hp : splitNetworkParse s = some (a, len))
    (h1 : len < t) (h2 : t ≤ famLimit a) :
    createPrefixAllocationParams s t = .ok ((maskAddr a len, len), t) := by
  have hn : createNetwork s = some (maskAddr a len, len) := by
    unfold createNetwork; rw [hp]; rfl
  have h2' : t ≤ famLimit (maskAddr a len) := by rw [famLimit_maskAddr]; exact h2
  unfold createPrefixAllocationParams
  rw [if_neg (by push_neg; exact ⟨hs, by omega⟩), hn]
  exact allocLenCheck_ok (maskAddr a len) len t h1 h2'

/-- Claim C4 (witness for the amended claim) at the unaligned seed
"10.0.0.1/8" with target length 24. -/
theorem c4_masked_amended_witness :
    createPrefixAllocationParams "10.0.0.1/8" 24 = .ok ((IPAddr.v4 167772160, 8), 24) :=
  c4_masked_amended "10.0.0.1/8" 24 (IPAddr.v4 167772161) 8 (by decide) (by decide) rfl
    (by decide) (by decide)

/-- Claim C5: the four concrete cases of `createPrefixAllocationParams`
("10.0.0.0/8" with 24 / 8 / 33 and "" with 24), the general must-be-filled
precondition, and the general success condition: for a seed that parses,
success exactly when declared length < target ≤ 32 (v4) resp. 128 (v6). -/
theorem c5_alloc_params_spec :
    createPrefixAllocationParams "10.0.0.0/8" 24 = .ok ((IPAddr.v4 167772160, 8), 24) ∧
    createPrefixAllocationParams "10.0.0.0/8" 8 =
      .error "invalid allocate_prefix_len (8), valid range = (8, 32]" ∧
    createPrefixAllocationParams "10.0.0.0/8" 33 =
      .error "invalid allocate_prefix_len (33), valid range = (8, 32]" ∧
    createPrefixAllocationParams "" 24 =
      .error "seed_prefix and allocate_prefix_len must be filled." ∧
    (∀ (s : String) (t : Nat), s = "" ∨ t = 0 →
      createPrefixAllocationParams s t =
        .error "seed_prefix and allocate_prefix_len must be filled.") ∧
    (∀ (s : String) (t : Nat) (a : IPAddr) (len : Nat), s ≠ "" → 0 < t →
      createNetwork s = some (a, len) →
      ((∃ r, createPrefixAllocationParams s t = .ok r) ↔ len < t ∧ t ≤ famLimit a)) := by
  refine ⟨rfl, rfl, rfl, rfl, ?_, ?_⟩
  · intro s t h
    unfold createPrefixAllocationParams
    rw [if_pos h]
  · intro s t a len hs ht hn
    unfold createPrefixAllocationParams
    rw [if_neg (by push_neg; exact ⟨hs, by omega⟩), hn]
    exact allocLenCheck_isOk a len t

/-- Claim C5 (witness for the general success condition) at "10.0.0.0/8"
with target length 20. -/
theorem c5_alloc_params_spec_witness :
    ∃ r, createPrefixAllocationParams "10.0.0.0/8" 20 = .ok r :=
  (c5_alloc_params_spec.2.2.2.2.2 "10.0.0.0/8" 20 (IPAddr.v4 167772160) 8 (by decide)
    (by decide) rfl).mpr (by decide)

/-- Claim C6: the six concrete liveness cases — keepalive 10 = hold 10 and
graceful-restart 30 = 3 × keepalive both pass (first conjunct), keepalive 11
with hold 10 fails, fast-init 60000 with hello 60 passes, fast-init 60001
with hello 60 fails, and graceful-restart 29 with keepalive 10 fails. -/
theorem c6_spark_examples :
    validateSpark sparkOk = .ok () ∧
    validateSpark { sparkOk with keepalive_time_s := 11, graceful_restart_time_s := 33 } =
      .error "keepalive_time_s (11) should be <= hold_time_s (10)" ∧
    validateSpark { sparkOk with fastinit_hello_time_ms := 60000, hold_time_s := 60 } =
      .ok () ∧
    validateSpark { sparkOk with fastinit_hello_time_ms := 60001, hold_time_s := 60 } =
      .error "fastinit_hello_time_ms (60001) should be <= hold_time_s (60) * 1000" ∧
    validateSpark { sparkOk with graceful_restart_time_s := 29 } =
      .error "graceful_restart_time_s (29) should be >= 3 * keepalive_time_s (10)" :=
  ⟨rfl, rfl, rfl, rfl, rfl⟩

/-- Claim C8: with allocation enabled, at most one area, a present
sub-document and mode leaf-node dynamic or static, the block rejects exactly
when the seed network is non-empty or the allocation length is non-zero, and
otherwise succeeds deriving no Prefix Allocation Parameters. -/
theorem c8_leaf_static_empty (cfg : OpenrConfig) (pc : PrefixAllocationConfig)
    (ids : List String)
    (hEn : isPrefixAllocationEnabled cfg = true)
    (hpc : cfg.prefix_allocation_config = some pc)
    (hmode : pc.prefix_allocation_mode = PrefixAllocationMode_DYNAMIC_LEAF_NODE ∨
             pc.prefix_allocation_mode = PrefixAllocationMode_STATIC)
    (hids : ids.length ≤ 1) :
    ((pc.seed_pfx.getD "" ≠ "" ∨ 0 < pc.allocate_prefix_len.getD 0) →
      checkPrefixAllocation cfg ids =
        .error "prefix_allocation_mode != DYNAMIC_ROOT_NODE, seed_prefix and allocate_prefix_len must be empty") ∧
    (pc.seed_pfx.getD "" = "" → pc.allocate_prefix_len.getD 0 = 0 →
      checkPrefixAllocation cfg ids = .ok none) := by
  have hnum : ¬ (1 < ids.length) := by omega
  have henum : enumNamePrefixAllocationMode pc.prefix_allocation_mode = true := by
    rcases hmode with hm | hm <;>
      simp [enumNamePrefixAllocationMode, hm, PrefixAllocationMode_DYNAMIC_LEAF_NODE,
        PrefixAllocationMode_DYNAMIC_ROOT_NODE, PrefixAllocationMode_STATIC]
  have hnotroot : ¬ (pc.prefix_allocation_mode = PrefixAllocationMode_DYNAMIC_ROOT_NODE) := by
    rcases hmode with hm | hm <;>
      simp [hm, PrefixAllocationMode_DYNAMIC_LEAF_NODE, PrefixAllocationMode_DYNAMIC_ROOT_NODE,
        PrefixAllocationMode_STATIC]
  constructor
  · intro hcond
    unfold checkPrefixAllocation
    rw [if_pos hEn, if_neg hnum, hpc]
    show checkPrefixAllocationConf (isV4Enabled cfg) pc = _
    simp only [checkPrefixAllocationConf, henum, Bool.not_true]
    rw [if_neg (by simp), if_neg hnotroot, if_pos hmode, if_pos hcond]
  · intro hseed hlen
    unfold checkPrefixAllocation
    rw [if_pos hEn, if_neg hnum, hpc]
    show checkPrefixAllocationConf (isV4Enabled cfg) pc = _
    simp only [checkPrefixAllocationConf, henum, Bool.not_true]
    rw [if_neg (by simp), if_neg hnotroot, if_pos hmode,
      if_neg (by simp [hseed, hlen])]

/-- A configuration with static prefix allocation enabled, empty seed and
absent allocation length (used as the C8 witness input). -/
def paStaticSample : OpenrConfig :=
  { sampleConfig with
    enable_prefix_allocation := true
    prefix_allocation_config := some ⟨PrefixAllocationMode_STATIC, none, none⟩ }

/-- Claim C8 (witness): the static mode with empty seed and absent length
passes the block deriving no parameters. -/
theorem c8_leaf_static_empty_witness :
    checkPrefixAllocation paStaticSample ["0"] = .ok none :=
  (c8_leaf_static_empty paStaticSample ⟨PrefixAllocationMode_STATIC, none, none⟩ ["0"] rfl rfl
    (Or.inr rfl) (by decide)).2 rfl rfl

/-- Claim C9: with peering enabled, an absent peering sub-document is a hard
error, while a present peering sub-document with an absent translation
sub-document is not rejected — an empty default translation sub-document is
synthesized into the stored configuration. -/
theorem c9_bgp_translation_default (cfg : OpenrConfig)
    (hEn : isBgpPeeringEnabled cfg = true) :
    (cfg.bgp_config = none →
      checkBgp cfg = .error "enable_bgp_peering = true, but bgp_config is empty") ∧
    (∀ b, cfg.bgp_config = some b → cfg.bgp_translation_config = none →
      checkBgp cfg = .ok { cfg with bgp_translation_config := some () }) := by
  constructor
  · intro h
    unfold checkBgp
    rw [if_pos ⟨hEn, h⟩]
  · intro b hb ht
    unfold checkBgp
    rw [if_neg (by simp [hb]), if_pos ⟨hEn, ht⟩]

/-- A configuration with peering enabled, a peering sub-document present and
no translation sub-document (used as the C9 witness input). -/
def bgpSample : OpenrConfig :=
  { sampleConfig with enable_bgp_peering := true, bgp_config := some () }

/-- Claim C9 (witness): the peering block synthesizes the default
translation sub-document instead of rejecting. -/
theorem c9_bgp_translation_default_witness :
    checkBgp bgpSample = .ok { bgpSample with bgp_translation_config := some () } :=
  (c9_bgp_translation_default bgpSample rfl).2 () rfl rfl

theorem checkDupAux_of_not_nodup (l : List AreaConfig) :
    ∀ acc : List String, acc.Nodup → ¬ (acc ++ l.map AreaConfig.area_id).Nodup →
    ∃ d, checkDupAux l acc = .error ("Duplicate area config: area_id " ++ d) ∧
         2 ≤ (acc ++ l.map AreaConfig.area_id).count d := by
  induction l with
  | nil =>
    intro acc hacc hdup
    simp at hdup
    exact absurd hacc hdup
  | cons a rest ih =>
    intro acc hacc hdup
    by_cases hmem : a.area_id ∈ acc
    · refine ⟨a.area_id, ?_, ?_⟩
      · simp [checkDupAux, hmem]
      · have h1 : 1 ≤ acc.count a.area_id := List.count_pos_iff.mpr hmem
        have h2 : 1 ≤ ((a :: rest).map AreaConfig.area_id).count a.area_id := by
          simp [List.count_cons]
        rw [List.count_append]
        omega
    · have hacc' : (acc ++ [a.area_id]).Nodup := by
        rw [List.nodup_append]
        exact ⟨hacc, List.nodup_singleton _, by simpa using hmem⟩
      have heq : acc ++ (a :: rest).map AreaConfig.area_id =
          (acc ++ [a.area_id]) ++ rest.map AreaConfig.area_id := by
        simp
      rw [heq] at hdup
      obtain ⟨d, hd, hc⟩ := ih (acc ++ [a.area_id]) hacc' hdup
      refine ⟨d, ?_, ?_⟩
      · simp only [checkDupAux]
        rw [if_neg hmem]
        exact hd
      · rw [heq]
        exact hc

/-- Claim C7: a configured area list containing two areas with the same
identifier makes `populateAreaConfig` fail with a duplicate-area error
naming a duplicated identifier, whatever the pattern lists of any area —
the duplicate sweep of lines 162-169 runs before the compilation sweep of
lines 171-176. -/
theorem c7_duplicate_area (areas : List AreaConfig)
    (h : ¬ (areas.map AreaConfig.area_id).Nodup) :
    ∃ d, populateAreaConfig areas = .error ("Duplicate area config: area_id " ++ d) ∧
         2 ≤ ((areas.map AreaConfig.area_id).count d) := by
  have hne : areas ≠ [] := by
    rintro rfl
    simp at h
  obtain ⟨d, hd, hc⟩ := checkDupAux_of_not_nodup areas [] (List.nodup_nil) (by simpa using h)
  refine ⟨d, ?_, by simpa using hc⟩
  have hemp : areas.isEmpty = false := by
    cases areas with
    | nil => exact absurd rfl hne
    | cons a rest => rfl
  simp [populateAreaConfig, hemp, hd]

/-- Claim C7 (witness): two areas sharing id "a", the first with a malformed
pattern and the second with both pattern lists empty — the duplicate error
is still the one reported. -/
theorem c7_duplicate_area_witness :
    ∃ d, populateAreaConfig [⟨"a", ["("], []⟩, ⟨"a", [], []⟩] =
        .error ("Duplicate area config: area_id " ++ d) ∧
      2 ≤ (([⟨"a", ["("], []⟩, ⟨"a", [], []⟩] : List AreaConfig).map AreaConfig.area_id).count d :=
  c7_duplicate_area [⟨"a", ["("], []⟩, ⟨"a", [], []⟩] (by decide)

theorem exceptBind_map {α β γ ε : Type} (x : Except ε α) (f : α → β) (g : β → Except ε γ) :
    Except.bind (Except.map f x) g = Except.bind x (fun a => g (f a)) := by
  cases x <;> rfl

theorem exceptMap_ok {α β ε : Type} (f : α → β) (a : α) :
    Except.map f (.ok a : Except ε α) = .ok (f a) := rfl

theorem populateInternalDb_params_none (cfg : OpenrConfig)
    (hdis : ∀ ids, checkPrefixAllocation cfg ids = .ok none) :
    ∀ st, populateInternalDb cfg = .ok st → st.prefixAllocationParams = none := by
  intro st hst
  simp only [populateInternalDb] at hst
  cases h1 : populateAreaConfig cfg.areas with
  | error e => rw [h1] at hst; simp [Except.bind] at hst
  | ok ast =>
  rw [h1] at hst; simp only [exceptBind_ok] at hst
  cases h2 : checkPrefixForwarding cfg.prefix_forwarding_type cfg.prefix_forwarding_algorithm with
  | error e => rw [h2] at hst; simp [Except.bind] at hst
  | ok u2 =>
  rw [h2] at hst; simp only [exceptBind_ok] at hst
  cases h3 : checkOrderedFib cfg ast with
  | error e => rw [h3] at hst; simp [Except.bind] at hst
  | ok u3 =>
  rw [h3] at hst; simp only [exceptBind_ok] at hst
  cases h4 : checkKvstore cfg.kvstore_config with
  | error e => rw [h4] at hst; simp [Except.bind] at hst
  | ok u4 =>
  rw [h4] at hst; simp only [exceptBind_ok] at hst
  cases h5 : validateSpark cfg.spark_config with
  | error e => rw [h5] at hst; simp [Except.bind] at hst
  | ok u5 =>
  rw [h5] at hst; simp only [exceptBind_ok] at hst
  cases h6 : checkMonitor cfg.monitor_config with
  | error e => rw [h6] at hst; simp [Except.bind] at hst
  | ok u6 =>
  rw [h6] at hst; simp only [exceptBind_ok] at hst
  cases h7 : checkLinkflapBackoff cfg.link_monitor_config with
  | error e => rw [h7] at hst; simp [Except.bind] at hst
  | ok u7 =>
  rw [h7] at hst; simp only [exceptBind_ok] at hst
  cases h8 : compileItfSet "include_interface_regexes" cfg.link_monitor_config.include_interface_regexes with
  | error e => rw [h8] at hst; simp [Except.bind] at hst
  | ok inc =>
  rw [h8] at hst; simp only [exceptBind_ok] at hst
  cases h9 : compileItfSet "exclude_interface_regexes" cfg.link_monitor_config.exclude_interface_regexes with
  | error e => rw [h9] at hst; simp [Except.bind] at hst
  | ok exc =>
  rw [h9] at hst; simp only [exceptBind_ok] at hst
  cases h10 : compileItfSet "redistribute_interface_regexes" cfg.link_monitor_config.redistribute_interface_regexes with
  | error e => rw [h10] at hst; simp [Except.bind] at hst
  | ok red =>
  rw [h10] at hst; simp only [exceptBind_ok] at hst
  rw [hdis ast.areaIds] at hst; simp only [exceptBind_ok] at hst
  cases h11 : checkBgp cfg with
  | error e => rw [h11] at hst; simp [Except.bind] at hst
  | ok cfg2 =>
  rw [h11] at hst; simp only [exceptBind_ok] at hst
  cases h12 : checkWatchdog cfg2 with
  | error e => rw [h12] at hst; simp [Except.bind] at hst
  | ok u12 =>
  rw [h12] at hst; simp only [exceptBind_ok] at hst
  simp only [Except.ok.injEq] at hst
  subst hst
  rfl

/-- Claim C10: when the prefix-allocation enabled flag is false, the
prefix-allocation sub-document is never inspected — the block returns "no
parameters derived" whatever the sub-document holds, the outcome of the
whole validation pipeline is identical (up to the stored copy of the
sub-document itself in the resulting configuration) for any two values of
the sub-document, and every successful construction carries no Prefix
Allocation Parameters. -/
theorem c10_pa_disabled_ignored (cfg : OpenrConfig) (p : Option PrefixAllocationConfig)
    (h : isPrefixAllocationEnabled cfg = false) :
    (∀ ids, checkPrefixAllocation { cfg with prefix_allocation_config := p } ids = .ok none) ∧
    populateInternalDb { cfg with prefix_allocation_config := p } =
      Except.map
        (fun st => { st with config := { st.config with prefix_allocation_config := p } })
        (populateInternalDb cfg) ∧
    (∀ st, populateInternalDb { cfg with prefix_allocation_config := p } = .ok st →
      st.prefixAllocationParams = none) := by
  simp only [isPrefixAllocationEnabled] at h
  have hdisP : ∀ ids,
      checkPrefixAllocation { cfg with prefix_allocation_config := p } ids = .ok none := by
    intro ids
    simp [checkPrefixAllocation, isPrefixAllocationEnabled, h]
  have hdis0 : ∀ ids, checkPrefixAllocation cfg ids = .ok none := by
    intro ids
    simp [checkPrefixAllocation, isPrefixAllocationEnabled, h]
  refine ⟨hdisP, ?_, populateInternalDb_params_none _ hdisP⟩
  have hofib : ∀ ast,
      checkOrderedFib { cfg with prefix_allocation_config := p } ast = checkOrderedFib cfg ast :=
    fun _ => rfl
  have hwd : ∀ c : OpenrConfig,
      checkWatchdog { c with prefix_allocation_config := p } = checkWatchdog c :=
    fun _ => rfl
  have hbgp : checkBgp { cfg with prefix_allocation_config := p } =
      Except.map (fun c => { c with prefix_allocation_config := p }) (checkBgp cfg) := by
    simp only [checkBgp, isBgpPeeringEnabled]
    split_ifs <;> rfl
  simp only [populateInternalDb, hofib, hdisP, hdis0, hbgp, hwd, exceptBind_map,
    exceptMap_bind, exceptMap_ok, exceptBind_ok]

/-- A prefix-allocation sub-document that would be rejected under every
enabled mode: unrecognized mode, malformed non-empty seed, oversized
length. -/
def paJunk : PrefixAllocationConfig := ⟨999, some "zzz", some 999⟩

/-- Claim C10 (witness): with allocation disabled, planting `paJunk` in the
sample document changes nothing — the block derives no parameters and the
pipeline result only differs in the stored copy of the sub-document. -/
theorem c10_pa_disabled_ignored_witness :
    checkPrefixAllocation { sampleConfig with prefix_allocation_config := some paJunk } ["0"] =
      .ok none ∧
    populateInternalDb { sampleConfig with prefix_allocation_config := some paJunk } =
      Except.map
        (fun st => { st with config := { st.config with prefix_allocation_config := some paJunk } })
        (populateInternalDb sampleConfig) :=
  ⟨(c10_pa_disabled_ignored sampleConfig (some paJunk) rfl).1 ["0"],
   (c10_pa_disabled_ignored sampleConfig (some paJunk) rfl).2.1⟩
